import Mathlib

/-!
Shallow embedding of `server.js`, a Spotify search proxy.

JavaScript strings are modelled as Lean `String` (with character-level
operations carried out on the underlying `List Char`), JS numbers that can
be `NaN` are modelled as `Option Int` with `none` standing for `NaN`,
missing / `null` / `undefined` object fields are modelled as `Option`,
and JS truthiness of a string is `none`/empty ↦ false.  Network calls are
parameters: each handler takes the upstream response it would receive and
returns, besides its HTTP result, a count of the upstream calls it made.
-/

namespace MusicProxy

/-- `dropWhile` on whitespace, the building block of JS `String.trim`. -/
def wsDrop (l : List Char) : List Char := l.dropWhile Char.isWhitespace

/-- Trim whitespace from both ends of a character list. -/
def trimChars (l : List Char) : List Char :=
  ((wsDrop ((wsDrop l).reverse)).reverse)

/-- JS `s.trim()`. -/
def jsTrim (s : String) : String := String.mk (trimChars s.data)

/-- One character of JS `toLowerCase`: the ASCII mapping plus U+212A (KELVIN
SIGN), the one non-ASCII character whose JS full lowercase is a plain ASCII
character.  Every other non-ASCII character leaves some non-ASCII character in
the JS result (e.g. U+0130 lowercases to `i` plus combining U+0307), so on the
only question the program asks of this string — equality with an ASCII-only
property name — this map agrees with JS on every input. -/
def jsCharLower (c : Char) : Char :=
  if c = Char.ofNat 8490 then 'k' else c.toLower

/-- JS `s.toLowerCase()`. -/
def jsToLower (s : String) : String := String.mk (s.data.map jsCharLower)

/-- JS `Array.prototype.join(sep)` on a list of strings. -/
def jsJoin (sep : String) : List String → String
  | [] => ""
  | [s] => s
  | s :: rest => s ++ sep ++ jsJoin sep rest

/-- Whether a character list contains two adjacent spaces. -/
def hasDoubleSpace : List Char → Bool
  | c1 :: c2 :: rest => ((c1 == ' ') && (c2 == ' ')) || hasDoubleSpace (c2 :: rest)
  | _ => false

/-- The first character, if any, is not a space. -/
def headNotSpace : List Char → Bool
  | [] => true
  | c :: _ => !(c == ' ')

/-- The last character, if any, is not a space. -/
def lastNotSpace : List Char → Bool
  | [] => true
  | [c] => !(c == ' ')
  | _ :: rest => lastNotSpace rest

/-- JS `a || d` where `a` is an optional string (absent or empty falls back). -/
def jsOrD (a : Option String) (d : String) : String :=
  match a with
  | none => d
  | some s => if s = "" then d else s

/-- JS `a || b` on two strings. -/
def jsOrStr (a b : String) : String := if a = "" then b else a

/-- Value of the leading decimal-digit prefix; `none` when there is none. -/
def digitsVal (l : List Char) : Option Nat :=
  match l.takeWhile Char.isDigit with
  | [] => none
  | ds => some (ds.foldl (fun a c => a * 10 + (c.toNat - 48)) 0)

/-- JS `parseInt(s, 10)`: skip whitespace, optional sign, leading digits;
`none` models `NaN`. -/
def jsParseInt (s : String) : Option Int :=
  match s.data.dropWhile Char.isWhitespace with
  | '-' :: rest => (digitsVal rest).map (fun n => -(n : Int))
  | '+' :: rest => (digitsVal rest).map (fun n => (n : Int))
  | l => (digitsVal l).map (fun n => (n : Int))

/-- Line 111: `Math.min(Math.max(parseInt(req.query.limit || "24", 10), 1), 50)`.
`none` models `NaN` (which `Math.min`/`Math.max` propagate). -/
def effectiveLimit (limitParam : Option String) : Option Int :=
  (jsParseInt (jsOrD limitParam ("24"))).map (fun n => min (max n 1) 50)

/-- JS `String(x)` on a possibly-`NaN` number. -/
def limitString : Option Int → String
  | none => "NaN"
  | some n => toString n

/-- JS truthiness of a possibly-absent string (`null`/`undefined`/`""` are falsy). -/
def strTruthy : Option String → Bool
  | none => false
  | some s => !(s == "")

/-! ## Token manager (lines 26-53) -/

/-- Line 26: `let tokenCache = ... access_token: null, expires_at: 0 ...`.
`expires_at = none` models `NaN` (which arises when `expires_in` is absent). -/
structure TokenCache where
  access_token : Option String
  expires_at : Option Int
deriving DecidableEq

/-- The JSON payload of the token-exchange response, fields optional. -/
structure TokenData where
  access_token : Option String
  expires_in : Option Int
  error : Option String
deriving DecidableEq

/-- The token-exchange HTTP response: `r.ok`, `r.status`, parsed body. -/
structure TokenResp where
  ok : Bool
  status : Int
  data : TokenData
deriving DecidableEq

/-- Outcome of one call to `getAccessToken`: a thrown `Error` or a normal
return (whose value can be `undefined`, modelled `none`). -/
inductive TokenResult where
  | thrown (msg : String)
  | returned (tok : Option String)
deriving DecidableEq

/-- One call to `getAccessToken`: its outcome, the cache afterwards, and
whether a token-exchange network call was made. -/
structure TokenStep where
  result : TokenResult
  cache : TokenCache
  networkCall : Bool
deriving DecidableEq

/-- Line 30: `now < tokenCache.expires_at - 10_000`; false when `expires_at` is `NaN`. -/
def cacheFresh (now : Int) : Option Int → Bool
  | none => false
  | some e => decide (now < e - 10000)

/-- Line 51: `Date.now() + data.expires_in * 1000`; `NaN` when `expires_in` is absent. -/
def jsExpiry (now2 : Int) : Option Int → Option Int
  | none => none
  | some n => some (now2 + n * 1000)

/-- Line 48 interpolation: `data.error || r.status`. -/
def errOrStatus (e : Option String) (status : Int) : String :=
  match e with
  | none => toString status
  | some s => if s = "" then toString status else s

/-- Lines 28-53: `getAccessToken`, with `Date.now()` results (`now` before the
exchange, `now2` after) and the exchange response passed as parameters. -/
def getAccessToken (cache : TokenCache) (now : Int) (resp : TokenResp) (now2 : Int) :
    TokenStep :=
  if strTruthy cache.access_token && cacheFresh now cache.expires_at then
    TokenStep.mk (TokenResult.returned cache.access_token) cache false
  else if !resp.ok then
    TokenStep.mk
      (TokenResult.thrown (("Spotify token failed: ") ++ errOrStatus resp.data.error resp.status))
      cache true
  else
    TokenStep.mk (TokenResult.returned resp.data.access_token)
      (TokenCache.mk resp.data.access_token (jsExpiry now2 resp.data.expires_in)) true

/-! ## Query helpers (lines 56-67) -/

/-- Lines 56-62: the `LANG_HINT` object literal's OWN properties (the
Language Hint Table itself). -/
def LANG_HINT (k : String) : Option String :=
  if k = "hindi" then some ("Hindi song")
  else if k = "english" then some ("English song")
  else if k = "kannada" then some ("Kannada song")
  else if k = "tamil" then some ("Tamil song")
  else if k = "telugu" then some ("Telugu song")
  else none

/-- A JS value a property read on `LANG_HINT` can produce: a string, a
built-in function (kept with its name), or the `Object.prototype` object. -/
inductive JsVal where
  | vstr (s : String)
  | vfun (name : String)
  | vobjProto
deriving DecidableEq

/-- JS truthiness of such a value: functions and objects are truthy, a string
is truthy iff non-empty. -/
def jsValTruthy : JsVal → Bool
  | JsVal.vstr s => !(s == "")
  | JsVal.vfun _ => true
  | JsVal.vobjProto => true

/-- JS `String(v)` as `Array.prototype.join` applies it: identity on strings,
`function NAME() \x7b [native code] \x7d` for a built-in function and
`[object Object]` for `Object.prototype` (V8 / Node, the runtime the source
targets per its line 2 comment). -/
def jsValToString : JsVal → String
  | JsVal.vstr s => s
  | JsVal.vfun n => ("function ") ++ n ++ ("() \x7b [native code] \x7d")
  | JsVal.vobjProto => "[object Object]"

/-- The members every object literal inherits from `Object.prototype`
(ECMAScript, Annex B included): `constructor` (the `Object` function), the
six standard methods, the `__proto__` accessor (yielding `Object.prototype`
itself) and the four legacy getter/setter methods. -/
def objectProtoMembers : List (String × JsVal) :=
  [(("constructor"), JsVal.vfun ("Object")),
   (("hasOwnProperty"), JsVal.vfun ("hasOwnProperty")),
   (("isPrototypeOf"), JsVal.vfun ("isPrototypeOf")),
   (("propertyIsEnumerable"), JsVal.vfun ("propertyIsEnumerable")),
   (("toLocaleString"), JsVal.vfun ("toLocaleString")),
   (("toString"), JsVal.vfun ("toString")),
   (("valueOf"), JsVal.vfun ("valueOf")),
   (("__proto__"), JsVal.vobjProto),
   (("__defineGetter__"), JsVal.vfun ("__defineGetter__")),
   (("__defineSetter__"), JsVal.vfun ("__defineSetter__")),
   (("__lookupGetter__"), JsVal.vfun ("__lookupGetter__")),
   (("__lookupSetter__"), JsVal.vfun ("__lookupSetter__"))]

/-- Look a key up among the inherited `Object.prototype` members. -/
def objectProtoMember (k : String) : Option JsVal :=
  (objectProtoMembers.find? (fun p => p.1 == k)).map Prod.snd

/-- Line 65 bracket access `LANG_HINT[k]`: an own property shadows the
prototype; a key absent from the literal is looked up on `Object.prototype`. -/
def langHintAccess (k : String) : Option JsVal :=
  match LANG_HINT k with
  | some s => some (JsVal.vstr s)
  | none => objectProtoMember k

/-- Line 65: `LANG_HINT[(lang || "").toLowerCase()] || ""` (`lang || ""` is
the identity on strings, so it is dropped). -/
def hintVal (lang : String) : JsVal :=
  match langHintAccess (jsToLower lang) with
  | none => JsVal.vstr ("")
  | some v => if jsValTruthy v then v else JsVal.vstr ("")

/-- Lines 64-67: `buildQuery`; `filter(Boolean)` keeps the truthy values and
`join(" ")` stringifies them. -/
def buildQuery (q lang : String) : String :=
  jsTrim (jsJoin (" ")
    (List.map jsValToString (List.filter jsValTruthy [JsVal.vstr q, hintVal lang])))

/-! ## Track mapping (lines 69-85) -/

/-- An entry of `album.images`; its `url` field may be absent. -/
structure ImageObj where
  url : Option String
deriving DecidableEq

/-- The `album` field of an upstream track. -/
structure AlbumObj where
  name : Option String
  images : Option (List ImageObj)
deriving DecidableEq

/-- The `external_urls` field of an upstream track. -/
structure ExtUrls where
  spotify : Option String
deriving DecidableEq

/-- An entry of `track.artists`. -/
structure ArtistObj where
  name : String
deriving DecidableEq

/-- An upstream track object, optional fields as `Option`. -/
structure TrackObj where
  id : String
  name : String
  artists : Option (List ArtistObj)
  album : Option AlbumObj
  external_urls : Option ExtUrls
  duration_ms : Int
  explicit : Bool
  preview_url : Option String
deriving DecidableEq

/-- The simplified track produced by `mapTrack`. -/
structure MappedTrack where
  id : String
  title : String
  artists : String
  album : String
  image : String
  url : String
  duration_ms : Int
  explicit : Bool
  preview_url : Option String
deriving DecidableEq

/-- `imgs[i]?.url` for a present image array. -/
def imgsCandidate (imgs : List ImageObj) (i : Nat) : Option String :=
  match imgs[i]? with
  | none => none
  | some im => im.url

/-- One disjunct of lines 76-78: `t.album?.images && t.album.images[i]?.url`. -/
def imageCandidate (t : TrackObj) (i : Nat) : Option String :=
  match t.album with
  | none => none
  | some al =>
    match al.images with
    | none => none
    | some imgs => imgsCandidate imgs i

/-- A chain `c0 || c1 || ... || ""` over possibly-absent strings. -/
def jsOrChain : List (Option String) → String
  | [] => ""
  | none :: rest => jsOrChain rest
  | some s :: rest => if s = "" then jsOrChain rest else s

/-- Line 73: `t.artists?.map((a) => a.name).join(", ") || ""`. -/
def artistsStr (t : TrackObj) : String :=
  match t.artists with
  | none => ""
  | some l => jsJoin (", ") (l.map ArtistObj.name)

/-- Line 74: `t.album?.name || ""`. -/
def albumStr (t : TrackObj) : String :=
  match t.album with
  | none => ""
  | some al =>
    match al.name with
    | none => ""
    | some s => s

/-- Line 80: `t.external_urls?.spotify || "https://open.spotify.com/track/" + t.id`. -/
def urlOf (t : TrackObj) : String :=
  match t.external_urls with
  | none => ("https://open.spotify.com/track/") ++ t.id
  | some eu =>
    match eu.spotify with
    | none => ("https://open.spotify.com/track/") ++ t.id
    | some u => if u = "" then ("https://open.spotify.com/track/") ++ t.id else u

/-- Line 83: `t.preview_url || null`. -/
def previewUrl (o : Option String) : Option String :=
  match o with
  | none => none
  | some s => if s = "" then none else some s

/-- Lines 69-85: `mapTrack`. -/
def mapTrack (t : TrackObj) : MappedTrack :=
  MappedTrack.mk t.id t.name (artistsStr t) (albumStr t)
    (jsOrChain [imageCandidate t 0, imageCandidate t 1, imageCandidate t 2])
    (urlOf t) t.duration_ms t.explicit (previewUrl t.preview_url)

/-- An image entry's url when it is present and non-empty. -/
def nonEmptyUrl (im : ImageObj) : Option String :=
  match im.url with
  | none => none
  | some u => if u = "" then none else some u

/-- Spec-side image selection: the first non-empty URL among the first three
entries of the album's image list, in order, and `""` when none exist. -/
def specImage (t : TrackObj) : String :=
  match t.album with
  | none => ""
  | some al =>
    match al.images with
    | none => ""
    | some imgs => ((imgs.take 3).filterMap nonEmptyUrl).headD ("")

/-- Spec-side (amended) url selection: the `external_urls.spotify` field when
present and non-empty, else the constructed provider URL from the track id. -/
def specUrl (t : TrackObj) : String :=
  match t.external_urls with
  | none => ("https://open.spotify.com/track/") ++ t.id
  | some eu =>
    match eu.spotify with
    | none => ("https://open.spotify.com/track/") ++ t.id
    | some u => if u = "" then ("https://open.spotify.com/track/") ++ t.id else u

/-! ## Routes (lines 88-145) -/

/-- Environment configuration (lines 12-14). -/
structure Config where
  clientId : String
  clientSecret : String
  defaultMarket : String
deriving DecidableEq

/-- The query parameters of a `/api/search` request, each possibly absent. -/
structure SearchReq where
  q : Option String
  lang : Option String
  market : Option String
  limit : Option String
deriving DecidableEq

/-- The `error` field of an upstream search payload: absent, a string, or an
object with an optional `message`. -/
inductive JErr where
  | absent
  | jstr (s : String)
  | jobj (message : Option String)
deriving DecidableEq

/-- The value placed in the proxy's `error` response field on upstream search
failure: a string, or the upstream error object passed through. -/
inductive JOut where
  | jstr (s : String)
  | jobj (message : Option String)
deriving DecidableEq

/-- The `tracks` field of an upstream search payload. -/
structure TracksObj where
  items : Option (List TrackObj)
deriving DecidableEq

/-- A parsed upstream search payload. -/
structure SearchData where
  error : JErr
  tracks : Option TracksObj
deriving DecidableEq

/-- The upstream search HTTP response. -/
structure SearchResp where
  ok : Bool
  status : Int
  data : SearchData
deriving DecidableEq

/-- Line 132: `data?.error?.message || data?.error || "Spotify search failed"`
(an error object is truthy, a string is truthy iff non-empty). -/
def errOut (d : SearchData) : JOut :=
  match d.error with
  | JErr.absent => JOut.jstr ("Spotify search failed")
  | JErr.jstr s => if s = "" then JOut.jstr ("Spotify search failed") else JOut.jstr s
  | JErr.jobj om =>
    match om with
    | none => JOut.jobj om
    | some m => if m = "" then JOut.jobj om else JOut.jstr m

/-- Line 137: `data.tracks?.items || []`. -/
def searchItems (d : SearchData) : List TrackObj :=
  match d.tracks with
  | none => []
  | some t => t.items.getD []

/-- Lines 116-121: the `URLSearchParams` sent to the upstream search call. -/
structure SearchParams where
  q : String
  qtype : String
  market : String
  limit : String
deriving DecidableEq

/-- The proxy's HTTP result for `/api/search`. -/
inductive SearchRes where
  | err (status : Int) (error : String)
  | errDetails (status : Int) (error : JOut) (details : SearchData)
  | success (query : String) (results : List MappedTrack)
deriving DecidableEq

/-- Result of one `/api/search` request: the response, how many token-exchange
and search network calls were made, the search params sent (if any), and the
token cache afterwards. -/
structure HandlerOut where
  res : SearchRes
  tokenCalls : Nat
  searchCalls : Nat
  params : Option SearchParams
  cache : TokenCache
deriving DecidableEq

/-- Lines 96-145: the `/api/search` handler.  `tokenResp`/`now`/`now2` feed the
`getAccessToken` call it may make; `sresp` is the upstream search response it
would receive. -/
def searchHandler (cfg : Config) (cache : TokenCache) (now now2 : Int)
    (tokenResp : TokenResp) (sresp : SearchResp) (req : SearchReq) : HandlerOut :=
  if cfg.clientId = "" ∨ cfg.clientSecret = "" then
    HandlerOut.mk (SearchRes.err 500 ("Server missing Spotify credentials (.env)")) 0 0 none cache
  else
    let qRaw := jsTrim (jsOrD req.q (""))
    if qRaw = "" then
      HandlerOut.mk (SearchRes.err 400 ("Missing query parameter: q")) 0 0 none cache
    else
      let lang := jsOrD req.lang ("english")
      let market := jsOrD req.market cfg.defaultMarket
      let limit := effectiveLimit req.limit
      let q := buildQuery qRaw lang
      let step := getAccessToken cache now tokenResp now2
      match step.result with
      | TokenResult.thrown msg =>
        HandlerOut.mk (SearchRes.err 500 (jsOrStr msg ("Internal error")))
          (if step.networkCall then 1 else 0) 0 none step.cache
      | TokenResult.returned _ =>
        let ps := SearchParams.mk q ("track") market (limitString limit)
        if sresp.ok then
          HandlerOut.mk (SearchRes.success q ((searchItems sresp.data).map mapTrack))
            (if step.networkCall then 1 else 0) 1 (some ps) step.cache
        else
          HandlerOut.mk (SearchRes.errDetails sresp.status (errOut sresp.data) sresp.data)
            (if step.networkCall then 1 else 0) 1 (some ps) step.cache

/-- The body returned by `GET /api/health` (lines 88-94). -/
structure HealthBody where
  ok : Bool
  market : String
  token_cached : Bool
deriving DecidableEq

/-- Lines 88-94: the `/api/health` handler; `token_cached` is
`!!tokenCache.access_token`. -/
def healthHandler (cfg : Config) (cache : TokenCache) : HealthBody :=
  HealthBody.mk true cfg.defaultMarket (strTruthy cache.access_token)

end MusicProxy

namespace MusicProxy

/-! ## Helper lemmas on strings and lists -/

theorem data_append (a b : String) : (a ++ b).data = a.data ++ b.data := by
cases a; cases b; rfl

theorem str_ext (a b : String) (h : a.data = b.data) : a = b := by
cases a; cases b; exact congrArg String.mk h

theorem data_ne_nil (q : String) (h : q ≠ "") : q.data ≠ [] := by
intro hd
exact h (str_ext q ("") (by rw [hd]))

theorem length_dropWhile_le (p : Char → Bool) (l : List Char) :
    (l.dropWhile p).length ≤ l.length := by
induction l with
| nil => simp
| cons a t ih =>
  rw [List.dropWhile_cons]
  by_cases h : p a = true
  · rw [if_pos h]
    simp only [List.length_cons]
    omega
  · rw [if_neg h]

theorem dropWhile_cons_head (p : Char → Bool) (a : Char) (t : List Char)
    (h : List.dropWhile p (a :: t) = a :: t) : p a = false := by
by_contra hc
have ha : p a = true := by
  revert hc
  cases p a <;> simp
rw [List.dropWhile_cons, if_pos ha] at h
have := length_dropWhile_le p t
have h2 := congrArg List.length h
simp at h2
omega

theorem dropWhile_eq_self_of_len (p : Char → Bool) (l : List Char)
    (h : (l.dropWhile p).length = l.length) : l.dropWhile p = l := by
cases l with
| nil => simp
| cons a t =>
  rw [List.dropWhile_cons]
  by_cases ha : p a = true
  · exfalso
    rw [List.dropWhile_cons, if_pos ha] at h
    have := length_dropWhile_le p t
    simp at h
    omega
  · rw [if_neg ha]

theorem dropWhile_append_keep (p : Char → Bool) (l m : List Char)
    (h : List.dropWhile p l = l) (hne : l ≠ []) :
    List.dropWhile p (l ++ m) = l ++ m := by
cases l with
| nil => exact absurd rfl hne
| cons a t =>
  have ha := dropWhile_cons_head p a t h
  rw [List.cons_append, List.dropWhile_cons, ha]
  simp

theorem trim_parts (l : List Char) (h : trimChars l = l) :
    wsDrop l = l ∧ wsDrop l.reverse = l.reverse := by
have len1 : (wsDrop l).length = l.length := by
  have e1 : (trimChars l).length = l.length := by rw [h]
  have e2 : (trimChars l).length = (wsDrop ((wsDrop l).reverse)).length := by
    simp [trimChars]
  have e3 : (wsDrop ((wsDrop l).reverse)).length ≤ (wsDrop l).length := by
    have := length_dropWhile_le Char.isWhitespace ((wsDrop l).reverse)
    simpa [wsDrop] using this
  have e4 : (wsDrop l).length ≤ l.length := length_dropWhile_le Char.isWhitespace l
  omega
have p1 : wsDrop l = l := dropWhile_eq_self_of_len Char.isWhitespace l len1
refine ⟨p1, ?_⟩
have h2 : (wsDrop l.reverse).reverse = l := by
  have : trimChars l = (wsDrop l.reverse).reverse := by rw [trimChars, p1]
  rw [← this, h]
have := congrArg List.reverse h2
simpa using this

theorem trim_append_fix (q h : String)
    (h1 : wsDrop q.data = q.data) (hq : q.data ≠ [])
    (h4 : wsDrop h.data.reverse = h.data.reverse) (hh : h.data ≠ []) :
    jsTrim (q ++ (" ") ++ h) = q ++ (" ") ++ h := by
have hd : (q ++ (" ") ++ h).data = q.data ++ (' ') :: h.data := by
  rw [data_append, data_append]
  simp
apply str_ext
rw [jsTrim]
show trimChars ((q ++ (" ") ++ h).data) = (q ++ (" ") ++ h).data
rw [hd]
have step1 : wsDrop (q.data ++ (' ') :: h.data) = q.data ++ (' ') :: h.data :=
  dropWhile_append_keep Char.isWhitespace q.data ((' ') :: h.data) h1 hq
have step2 : (q.data ++ (' ') :: h.data).reverse
    = h.data.reverse ++ (' ') :: q.data.reverse := by
  simp
have step3 : wsDrop (h.data.reverse ++ (' ') :: q.data.reverse)
    = h.data.reverse ++ (' ') :: q.data.reverse := by
  apply dropWhile_append_keep Char.isWhitespace _ _ h4
  simpa using hh
rw [trimChars, step1, step2, step3, ← step2]
simp

theorem lastNotSpace_eq (l : List Char) : lastNotSpace l = headNotSpace l.reverse := by
induction l with
| nil => rfl
| cons x t ih =>
  cases t with
  | nil => rfl
  | cons y t2 =>
    have hl : lastNotSpace (x :: y :: t2) = lastNotSpace (y :: t2) := rfl
    rw [hl, ih]
    obtain ⟨z, w, hzw⟩ : ∃ z w, (y :: t2).reverse = z :: w := by
      cases hr : (y :: t2).reverse with
      | nil => exact absurd (List.reverse_eq_nil_iff.mp hr) (by simp)
      | cons z w => exact ⟨z, w, rfl⟩
    have hr2 : (x :: y :: t2).reverse = ((y :: t2).reverse) ++ [x] :=
      List.reverse_cons x (y :: t2)
    rw [hr2, hzw]
    rfl

theorem trimmed_lastNotSpace (q : String)
    (h2 : wsDrop q.data.reverse = q.data.reverse) (hne : q.data ≠ []) :
    lastNotSpace q.data = true := by
rw [lastNotSpace_eq]
cases hr : q.data.reverse with
| nil => exact absurd (List.reverse_eq_nil_iff.mp hr) hne
| cons c r =>
  rw [hr] at h2
  have hc := dropWhile_cons_head Char.isWhitespace c r h2
  have : (c == ' ') = false := by
    by_contra hcc
    have : c = ' ' := by
      revert hcc
      cases hcs : c == ' '
      · simp
      · intro
        exact eq_of_beq hcs
    rw [this] at hc
    simp [Char.isWhitespace] at hc
  simp [headNotSpace, this]

theorem hds_space_cons (b : List Char) (hb : hasDoubleSpace b = false)
    (hhead : headNotSpace b = true) : hasDoubleSpace ((' ') :: b) = false := by
cases b with
| nil => rfl
| cons c bt =>
  have hc : (c == ' ') = false := by
    simp only [headNotSpace] at hhead
    revert hhead
    cases c == ' ' <;> simp
  rw [hasDoubleSpace]
  simp [hc, hb]

theorem hds_append (a b : List Char) (ha : hasDoubleSpace a = false)
    (hlast : lastNotSpace a = true)
    (hb : hasDoubleSpace b = false) (hhead : headNotSpace b = true) :
    hasDoubleSpace (a ++ (' ') :: b) = false := by
induction a with
| nil => simpa using hds_space_cons b hb hhead
| cons x t ih =>
  cases t with
  | nil =>
    have hx : (x == ' ') = false := by
      simp only [lastNotSpace] at hlast
      revert hlast
      cases x == ' ' <;> simp
    have := hds_space_cons b hb hhead
    simp only [List.cons_append, List.nil_append]
    rw [hasDoubleSpace]
    simp [hx, this]
  | cons y t2 =>
    have ha2 : ((x == ' ') && (y == ' ')) = false ∧ hasDoubleSpace (y :: t2) = false := by
      rw [hasDoubleSpace] at ha
      exact Bool.or_eq_false_iff.mp ha
    have hl2 : lastNotSpace (y :: t2) = true := hlast
    have ihr := ih ha2.2 hl2
    simp only [List.cons_append]
    rw [hasDoubleSpace]
    simp only [ha2.1, Bool.false_or]
    simpa using ihr

/-! ## Reduction lemmas for `buildQuery` -/

set_option maxHeartbeats 1000000 in
theorem access_props (k : String) (v : JsVal) (h : langHintAccess k = some v) :
    jsValTruthy v = true ∧ jsValToString v ≠ "" ∧
    wsDrop (jsValToString v).data = (jsValToString v).data ∧
    wsDrop (jsValToString v).data.reverse = (jsValToString v).data.reverse ∧
    headNotSpace (jsValToString v).data = true ∧
    hasDoubleSpace (jsValToString v).data = false := by
unfold langHintAccess at h
cases hL : LANG_HINT k with
| some s =>
  rw [hL] at h
  simp only [Option.some.injEq] at h
  subst h
  rw [LANG_HINT] at hL
  split_ifs at hL <;> cases hL <;> decide
| none =>
  rw [hL] at h
  rw [objectProtoMember] at h
  cases hf : List.find? (fun p => p.1 == k) objectProtoMembers with
  | none =>
    rw [hf] at h
    cases h
  | some p =>
    rw [hf] at h
    simp only [Option.map_some'] at h
    have hv : p.2 = v := by
      cases h
      rfl
    subst hv
    have hmem := List.mem_of_find?_eq_some hf
    fin_cases hmem <;> decide

theorem buildQuery_miss (q lang : String) (hq : jsTrim q = q) (hne : q ≠ "")
    (hmiss : langHintAccess (jsToLower lang) = none) : buildQuery q lang = q := by
have hv : hintVal lang = JsVal.vstr ("") := by
  rw [hintVal, hmiss]
rw [buildQuery, hv]
have h1 : (q == "") = false := beq_eq_false_iff_ne.mpr hne
have hfq : jsValTruthy (JsVal.vstr q) = true := by
  show (!(q == "")) = true
  rw [h1]
  rfl
have hfe : jsValTruthy (JsVal.vstr ("")) = false := rfl
rw [show List.filter jsValTruthy [JsVal.vstr q, JsVal.vstr ("")] = [JsVal.vstr q] by
  rw [List.filter_cons, hfq, if_pos rfl, List.filter_cons, hfe, if_neg (by simp),
    List.filter_nil]]
rw [show jsJoin (" ") (List.map jsValToString [JsVal.vstr q]) = q from rfl]
exact hq

theorem buildQuery_hit (q lang : String) (v : JsVal) (hq : jsTrim q = q) (hne : q ≠ "")
    (hhit : langHintAccess (jsToLower lang) = some v) :
    buildQuery q lang = q ++ (" ") ++ jsValToString v := by
obtain ⟨hh0, hh1, hh2, hh3, hh4, hh5⟩ := access_props _ _ hhit
have hv : hintVal lang = v := by
  rw [hintVal, hhit]
  show (if jsValTruthy v = true then v else JsVal.vstr ("")) = v
  rw [hh0, if_pos rfl]
rw [buildQuery, hv]
have h1 : (q == "") = false := beq_eq_false_iff_ne.mpr hne
have hfq : jsValTruthy (JsVal.vstr q) = true := by
  show (!(q == "")) = true
  rw [h1]
  rfl
rw [show List.filter jsValTruthy [JsVal.vstr q, v] = [JsVal.vstr q, v] by
  rw [List.filter_cons, hfq, if_pos rfl, List.filter_cons, hh0, if_pos rfl,
    List.filter_nil]]
rw [show jsJoin (" ") (List.map jsValToString [JsVal.vstr q, v])
    = q ++ (" ") ++ jsValToString v from rfl]
have htc : trimChars q.data = q.data := congrArg String.data hq
obtain ⟨p1, p2⟩ := trim_parts q.data htc
exact trim_append_fix q (jsValToString v) p1 (data_ne_nil q hne) hh3
  (data_ne_nil (jsValToString v) hh1)

/-! ## Claim theorems -/

/-- C4 (corrected): for every query that is non-empty and trimmed and every
language hint, the augmented query equals the query when the bracket access
(own properties, then the prototype chain) finds nothing, and the query
followed by exactly one space and the string form of the found value when it
finds one (a table phrase or a stringified `Object.prototype` member); it has
no leading or trailing whitespace (it is a `jsTrim` fixed point); and it
contains a double space only if the query itself does. -/
theorem C4_query_augmentation (q lang : String) (hq : jsTrim q = q) (hne : q ≠ "") :
    (langHintAccess (jsToLower lang) = none → buildQuery q lang = q) ∧
    (∀ v, langHintAccess (jsToLower lang) = some v →
      buildQuery q lang = q ++ (" ") ++ jsValToString v) ∧
    jsTrim (buildQuery q lang) = buildQuery q lang ∧
    (hasDoubleSpace q.data = false → hasDoubleSpace (buildQuery q lang).data = false) := by
refine ⟨fun hmiss => buildQuery_miss q lang hq hne hmiss,
  fun v hhit => buildQuery_hit q lang v hq hne hhit, ?_, ?_⟩
· cases hcase : langHintAccess (jsToLower lang) with
  | none =>
    rw [buildQuery_miss q lang hq hne hcase]
    exact hq
  | some v =>
    rw [buildQuery_hit q lang v hq hne hcase]
    obtain ⟨hh0, hh1, hh2, hh3, hh4, hh5⟩ := access_props _ _ hcase
    have htc : trimChars q.data = q.data := congrArg String.data hq
    obtain ⟨p1, p2⟩ := trim_parts q.data htc
    exact trim_append_fix q (jsValToString v) p1 (data_ne_nil q hne) hh3
      (data_ne_nil (jsValToString v) hh1)
· intro hnd
  cases hcase : langHintAccess (jsToLower lang) with
  | none =>
    rw [buildQuery_miss q lang hq hne hcase]
    exact hnd
  | some v =>
    rw [buildQuery_hit q lang v hq hne hcase]
    obtain ⟨hh0, hh1, hh2, hh3, hh4, hh5⟩ := access_props _ _ hcase
    have htc : trimChars q.data = q.data := congrArg String.data hq
    obtain ⟨p1, p2⟩ := trim_parts q.data htc
    have hlast := trimmed_lastNotSpace q p2 (data_ne_nil q hne)
    have hd : (q ++ (" ") ++ jsValToString v).data
        = q.data ++ (' ') :: (jsValToString v).data := by
      rw [data_append, data_append]
      simp
    rw [hd]
    exact hds_append q.data (jsValToString v).data hnd hlast hh5 hh4

/-- Witness for C4: a concrete trimmed query with the `hindi` hint. -/
theorem C4_witness :
    buildQuery ("arijit") ("hindi")
      = ("arijit") ++ (" ") ++ jsValToString (JsVal.vstr ("Hindi song")) ∧
    jsTrim (buildQuery ("arijit") ("hindi")) = buildQuery ("arijit") ("hindi") ∧
    hasDoubleSpace (buildQuery ("arijit") ("hindi")).data = false :=
⟨(C4_query_augmentation ("arijit") ("hindi") (by decide) (by decide)).2.1
    (JsVal.vstr ("Hindi song")) (by decide),
 (C4_query_augmentation ("arijit") ("hindi") (by decide) (by decide)).2.2.1,
 (C4_query_augmentation ("arijit") ("hindi") (by decide) (by decide)).2.2.2 (by decide)⟩

/-- Counterexample for C4 as stated: the trimmed non-empty query `"a  b"`
yields an augmented query that does contain a double space. -/
theorem C4_counterexample :
    jsTrim ("a  b") = ("a  b") ∧ ("a  b") ≠ ("") ∧
    hasDoubleSpace ((buildQuery ("a  b") ("klingon")).data) = true := by
decide

/-- C8 (corrected): a hint value whose lowercased form is neither a Language
Hint Table key nor an inherited `Object.prototype` member name contributes no
suffix; a lowercased hint naming an inherited `Object.prototype` member does
append that member's string form as a suffix; the lookup depends only on the
lowercased hint (case-insensitivity); and an unset `lang` defaults to
`"english"`, whose bracket access yields the phrase `"English song"`. -/
theorem C8_unknown_hint (q lang lang2 : String) (hq : jsTrim q = q) (hne : q ≠ "") :
    (LANG_HINT (jsToLower lang) = none → objectProtoMember (jsToLower lang) = none →
      buildQuery q lang = q) ∧
    (∀ v, LANG_HINT (jsToLower lang) = none →
      objectProtoMember (jsToLower lang) = some v →
      buildQuery q lang = q ++ (" ") ++ jsValToString v) ∧
    (jsToLower lang = jsToLower lang2 → buildQuery q lang = buildQuery q lang2) ∧
    jsOrD none ("english") = ("english") ∧
    langHintAccess (jsToLower ("english")) = some (JsVal.vstr ("English song")) := by
refine ⟨fun hm1 hm2 => ?_, fun v hm1 hhit => ?_, fun he => ?_, rfl, by decide⟩
· exact buildQuery_miss q lang hq hne (by rw [langHintAccess, hm1, hm2])
· exact buildQuery_hit q lang v hq hne (by rw [langHintAccess, hm1]; exact hhit)
· rw [buildQuery, buildQuery, hintVal, hintVal, he]

/-- Witness for C8: `"klingon"` hits neither the table nor the prototype and
adds no suffix; `"__proto__"` misses the table but hits the prototype and
appends `[object Object]`; `"HINDI"` is looked up exactly like `"hindi"`, and
a Kelvin-sign `"KANNADA"` exactly like `"kannada"`. -/
theorem C8_witness :
    buildQuery ("hello") ("klingon") = ("hello") ∧
    buildQuery ("hello") ("__proto__")
      = ("hello") ++ (" ") ++ jsValToString JsVal.vobjProto ∧
    buildQuery ("hello") ("HINDI") = buildQuery ("hello") ("hindi") ∧
    buildQuery ("hello") ("KANNADA") = buildQuery ("hello") ("kannada") :=
⟨(C8_unknown_hint ("hello") ("klingon") ("klingon") (by decide) (by decide)).1
    (by decide) (by decide),
 (C8_unknown_hint ("hello") ("__proto__") ("__proto__") (by decide) (by decide)).2.1
    JsVal.vobjProto (by decide) (by decide),
 (C8_unknown_hint ("hello") ("HINDI") ("hindi") (by decide) (by decide)).2.2.1
    (by decide),
 (C8_unknown_hint ("hello") ("KANNADA") ("kannada") (by decide) (by decide)).2.2.1
    (by decide)⟩

/-- Counterexample for C8 as stated: `"constructor"` is not in the Language
Hint Table (under case-insensitive lookup), yet the augmented query is not the
trimmed query alone — the stringified inherited `Object.prototype.constructor`
is appended as a suffix. -/
theorem C8_counterexample :
    LANG_HINT (jsToLower ("constructor")) = none ∧
    buildQuery ("hello") ("constructor")
      = ("hello function Object() \x7b [native code] \x7d") ∧
    buildQuery ("hello") ("constructor") ≠ ("hello") := by
decide

/-- C1 (corrected): when the cache holds a non-empty token and the current
time is strictly below the cached expiry minus the 10-second margin, the
cached token is returned with no network call and the cache untouched;
otherwise, on a success-status exchange, the cache is overwritten with the
returned token and an absolute expiry of `now2 + expires_in * 1000`. -/
theorem C1_token_cache (cache : TokenCache) (now now2 : Int) (resp : TokenResp)
    (tok : String) (ea : Int) :
    (cache.access_token = some tok → tok ≠ "" → cache.expires_at = some ea →
      now < ea - 10000 →
      getAccessToken cache now resp now2
        = TokenStep.mk (TokenResult.returned (some tok)) cache false) ∧
    ((strTruthy cache.access_token && cacheFresh now cache.expires_at) = false →
      resp.ok = true →
      getAccessToken cache now resp now2
        = TokenStep.mk (TokenResult.returned resp.data.access_token)
            (TokenCache.mk resp.data.access_token (jsExpiry now2 resp.data.expires_in))
            true) ∧
    (∀ t n, resp.data.access_token = some t → resp.data.expires_in = some n →
      (strTruthy cache.access_token && cacheFresh now cache.expires_at) = false →
      resp.ok = true →
      getAccessToken cache now resp now2
        = TokenStep.mk (TokenResult.returned (some t))
            (TokenCache.mk (some t) (some (now2 + n * 1000))) true) := by
refine ⟨?_, ?_, ?_⟩
· intro h1 h2 h3 h4
  have hb : (tok == "") = false := beq_eq_false_iff_ne.mpr h2
  simp [getAccessToken, h1, h3, strTruthy, cacheFresh, hb, h4]
· intro hcond hok
  simp [getAccessToken, hcond, hok]
· intro t n ht hn hcond hok
  simp [getAccessToken, hcond, hok, ht, hn, jsExpiry]

/-- Witness for C1: a fresh cached token is reused with no network call; an
absent cached token triggers the exchange and the cache is overwritten. -/
theorem C1_witness :
    getAccessToken (TokenCache.mk (some ("tokA")) (some 1000000)) 0
        (TokenResp.mk true 200 (TokenData.mk (some ("tokB")) (some 3600) none)) 5
      = TokenStep.mk (TokenResult.returned (some ("tokA")))
          (TokenCache.mk (some ("tokA")) (some 1000000)) false ∧
    getAccessToken (TokenCache.mk none (some 0)) 0
        (TokenResp.mk true 200 (TokenData.mk (some ("tokB")) (some 3600) none)) 5
      = TokenStep.mk (TokenResult.returned (some ("tokB")))
          (TokenCache.mk (some ("tokB")) (some (5 + 3600 * 1000))) true :=
⟨(C1_token_cache (TokenCache.mk (some ("tokA")) (some 1000000)) 0 5
    (TokenResp.mk true 200 (TokenData.mk (some ("tokB")) (some 3600) none))
    ("tokA") 1000000).1 rfl (by decide) rfl (by decide),
 (C1_token_cache (TokenCache.mk none (some 0)) 0 5
    (TokenResp.mk true 200 (TokenData.mk (some ("tokB")) (some 3600) none))
    ("x") 0).2.2 ("tokB") 3600 rfl rfl (by decide) rfl⟩

/-- Counterexample for C1 as stated: a present (but empty-string) cached token
with an unexpired expiry is not returned; the code performs the exchange. -/
theorem C1_counterexample :
    (TokenCache.mk (some ("")) (some 1000000)).access_token.isSome = true ∧
    ((0 : Int) < 1000000 - 10000) ∧
    (getAccessToken (TokenCache.mk (some ("")) (some 1000000)) 0
        (TokenResp.mk true 200 (TokenData.mk (some ("tokB")) (some 3600) none))
        5).networkCall = true := by
decide

/-- C3 (corrected): a non-success exchange status makes `getAccessToken` throw
(with the upstream error or status in the message) and leaves the cache alone;
but a success-status payload is stored without validation, so a payload with
no access token makes it return normally with an absent token. -/
theorem C3_token_failure (cache : TokenCache) (now now2 : Int) (resp : TokenResp)
    (hmiss : (strTruthy cache.access_token && cacheFresh now cache.expires_at) = false) :
    (resp.ok = false →
      getAccessToken cache now resp now2
        = TokenStep.mk (TokenResult.thrown (("Spotify token failed: ")
            ++ errOrStatus resp.data.error resp.status)) cache true) ∧
    (resp.ok = true → resp.data.access_token = none →
      getAccessToken cache now resp now2
        = TokenStep.mk (TokenResult.returned none)
            (TokenCache.mk none (jsExpiry now2 resp.data.expires_in)) true) := by
constructor
· intro hok
  simp [getAccessToken, hmiss, hok]
· intro hok hnone
  simp [getAccessToken, hmiss, hok, hnone]

/-- Witness for C3: a 400 exchange response with an `error` field makes
`getAccessToken` throw with that error in the message. -/
theorem C3_witness :
    getAccessToken (TokenCache.mk none (some 0)) 0
        (TokenResp.mk false 400 (TokenData.mk none none (some ("invalid_client")))) 5
      = TokenStep.mk (TokenResult.thrown (("Spotify token failed: ")
          ++ errOrStatus (some ("invalid_client")) 400))
          (TokenCache.mk none (some 0)) true :=
(C3_token_failure (TokenCache.mk none (some 0)) 0 5
  (TokenResp.mk false 400 (TokenData.mk none none (some ("invalid_client"))))
  (by decide)).1 rfl

/-- Counterexample for C3 as stated: a success-status exchange whose payload
has no access token returns normally and overwrites the cache anyway. -/
theorem C3_counterexample :
    getAccessToken (TokenCache.mk none (some 0)) 0
        (TokenResp.mk true 200 (TokenData.mk none none none)) 5
      = TokenStep.mk (TokenResult.returned none) (TokenCache.mk none none) true := by
decide

/-- C10 (corrected): `token_cached` is true exactly when the cache holds a
non-null AND non-empty token value, regardless of expiry; in particular it is
true for an expired non-empty token, which `getAccessToken` would refresh
(network call) rather than return. -/
theorem C10_token_cached (cfg : Config) (cache : TokenCache) :
    ((healthHandler cfg cache).token_cached = true ↔
      ∃ s, cache.access_token = some s ∧ s ≠ "") ∧
    (∀ s ea now resp now2, cache.access_token = some s → s ≠ "" →
      cache.expires_at = some ea → ea - 10000 ≤ now →
      (healthHandler cfg cache).token_cached = true ∧
      (getAccessToken cache now resp now2).networkCall = true) := by
constructor
· cases hc : cache.access_token with
  | none => simp [healthHandler, strTruthy, hc]
  | some s =>
    simp [healthHandler, strTruthy, hc]
· intro s ea now resp now2 hs hne hea hexp
  have hb : (s == "") = false := beq_eq_false_iff_ne.mpr hne
  constructor
  · simp [healthHandler, strTruthy, hs, hb]
  · have hfresh : cacheFresh now cache.expires_at = false := by
      rw [hea]
      simp [cacheFresh]
      omega
    by_cases hok : resp.ok
    · simp [getAccessToken, hfresh, hok]
    · simp [getAccessToken, hfresh, hok]

/-- Witness for C10: an expired non-empty token still reports
`token_cached = true` while `getAccessToken` performs a network call. -/
theorem C10_witness :
    (healthHandler (Config.mk ("id") ("sec") ("IN"))
        (TokenCache.mk (some ("tokA")) (some 5000))).token_cached = true ∧
    (getAccessToken (TokenCache.mk (some ("tokA")) (some 5000)) 999999
        (TokenResp.mk true 200 (TokenData.mk (some ("tokB")) (some 3600) none))
        1000000).networkCall = true :=
(C10_token_cached (Config.mk ("id") ("sec") ("IN"))
    (TokenCache.mk (some ("tokA")) (some 5000))).2 ("tokA") 5000 999999
  (TokenResp.mk true 200 (TokenData.mk (some ("tokB")) (some 3600) none)) 1000000
  rfl (by decide) rfl (by decide)

/-- Counterexample for C10 as stated: a cache holding the non-null (but empty)
token value `""` reports `token_cached = false`. -/
theorem C10_counterexample :
    (TokenCache.mk (some ("")) (some 999999999)).access_token.isSome = true ∧
    (healthHandler (Config.mk ("id") ("sec") ("IN"))
        (TokenCache.mk (some ("")) (some 999999999))).token_cached = false := by
decide

/-- C2 (corrected): an unset or empty `limit` parameter defaults to 24;
otherwise the value is parsed with `parseInt` base 10, and when that yields an
integer it is clamped to [1, 50] (below 1 raised to 1, above 50 lowered to 50,
in-range values unchanged); when `parseInt` yields NaN (non-numeric input) the
NaN propagates through the clamp and the string `"NaN"` is sent upstream. -/
theorem C2_limit_clamp :
    effectiveLimit none = some 24 ∧
    effectiveLimit (some ("")) = some 24 ∧
    (∀ s n, s ≠ "" → jsParseInt s = some n →
      effectiveLimit (some s) = some (min (max n 1) 50) ∧
      (n < 1 → effectiveLimit (some s) = some 1) ∧
      (50 < n → effectiveLimit (some s) = some 50) ∧
      (1 ≤ n → n ≤ 50 → effectiveLimit (some s) = some n)) ∧
    (∀ s, s ≠ "" → jsParseInt s = none →
      effectiveLimit (some s) = none ∧
      limitString (effectiveLimit (some s)) = ("NaN")) := by
refine ⟨by decide, by decide, ?_, ?_⟩
· intro s n hs hp
  have hd : jsOrD (some s) ("24") = s := by simp [jsOrD, hs]
  have hbase : effectiveLimit (some s) = some (min (max n 1) 50) := by
    rw [effectiveLimit, hd, hp]
    rfl
  refine ⟨hbase, fun hlt => ?_, fun hgt => ?_, fun hge hle => ?_⟩
  · rw [hbase]
    congr 1
    omega
  · rw [hbase]
    congr 1
    omega
  · rw [hbase]
    congr 1
    omega
· intro s hs hp
  have hd : jsOrD (some s) ("24") = s := by simp [jsOrD, hs]
  have hbase : effectiveLimit (some s) = none := by
    rw [effectiveLimit, hd, hp]
    rfl
  exact ⟨hbase, by rw [hbase]; rfl⟩

/-- Witness for C2: 999 is lowered to 50, 0 and -5 are raised to 1, 24 passes
through, and the non-numeric `"abc"` becomes NaN. -/
theorem C2_witness :
    effectiveLimit (some ("999")) = some 50 ∧
    effectiveLimit (some ("0")) = some 1 ∧
    effectiveLimit (some ("24")) = some 24 ∧
    effectiveLimit (some ("-5")) = some 1 ∧
    effectiveLimit (some ("abc")) = none :=
⟨(C2_limit_clamp.2.2.1 ("999") 999 (by decide) (by decide)).2.2.1 (by decide),
 (C2_limit_clamp.2.2.1 ("0") 0 (by decide) (by decide)).2.1 (by decide),
 (C2_limit_clamp.2.2.1 ("24") 24 (by decide) (by decide)).2.2.2 (by decide) (by decide),
 (C2_limit_clamp.2.2.1 ("-5") (-5) (by decide) (by decide)).2.1 (by decide),
 (C2_limit_clamp.2.2.2 ("abc") (by decide) (by decide)).1⟩

/-- Counterexample for C2 as stated: the non-numeric limit `"abc"` is neither
defaulted to 24 nor clamped into [1, 50]; it becomes NaN, and the literal
string `"NaN"` is what reaches the upstream query. -/
theorem C2_counterexample :
    effectiveLimit (some ("abc")) = none ∧
    limitString (effectiveLimit (some ("abc"))) = ("NaN") := by
decide

theorem chain3 (imgs : List ImageObj) :
    jsOrChain [imgsCandidate imgs 0, imgsCandidate imgs 1, imgsCandidate imgs 2]
      = ((imgs.take 3).filterMap nonEmptyUrl).headD ("") := by
rcases imgs with _ | ⟨a, _ | ⟨b, _ | ⟨c, rest⟩⟩⟩
· rfl
· obtain ⟨u⟩ := a
  cases u with
  | none => rfl
  | some v =>
    by_cases hv : v = "" <;>
      simp [imgsCandidate, jsOrChain, nonEmptyUrl, hv]
· obtain ⟨u⟩ := a
  obtain ⟨w⟩ := b
  cases u with
  | none =>
    cases w with
    | none => rfl
    | some v2 =>
      by_cases hv2 : v2 = "" <;>
        simp [imgsCandidate, jsOrChain, nonEmptyUrl, hv2]
  | some v =>
    by_cases hv : v = "" <;> cases w with
    | none => simp [imgsCandidate, jsOrChain, nonEmptyUrl, hv]
    | some v2 =>
      by_cases hv2 : v2 = "" <;>
        simp [imgsCandidate, jsOrChain, nonEmptyUrl, hv, hv2]
· obtain ⟨u⟩ := a
  obtain ⟨w⟩ := b
  obtain ⟨x⟩ := c
  have ht : (ImageObj.mk u :: ImageObj.mk w :: ImageObj.mk x :: rest).take 3
      = [ImageObj.mk u, ImageObj.mk w, ImageObj.mk x] := rfl
  rw [ht]
  cases u with
  | none =>
    cases w with
    | none =>
      cases x with
      | none => simp [imgsCandidate, jsOrChain, nonEmptyUrl]
      | some v3 =>
        by_cases hv3 : v3 = "" <;>
          simp [imgsCandidate, jsOrChain, nonEmptyUrl, hv3]
    | some v2 =>
      by_cases hv2 : v2 = "" <;> cases x with
      | none => simp [imgsCandidate, jsOrChain, nonEmptyUrl, hv2]
      | some v3 =>
        by_cases hv3 : v3 = "" <;>
          simp [imgsCandidate, jsOrChain, nonEmptyUrl, hv2, hv3]
  | some v =>
    by_cases hv : v = "" <;> cases w with
    | none =>
      cases x with
      | none => simp [imgsCandidate, jsOrChain, nonEmptyUrl, hv]
      | some v3 =>
        by_cases hv3 : v3 = "" <;>
          simp [imgsCandidate, jsOrChain, nonEmptyUrl, hv, hv3]
    | some v2 =>
      by_cases hv2 : v2 = "" <;> cases x with
      | none => simp [imgsCandidate, jsOrChain, nonEmptyUrl, hv, hv2]
      | some v3 =>
        by_cases hv3 : v3 = "" <;>
          simp [imgsCandidate, jsOrChain, nonEmptyUrl, hv, hv2, hv3]

/-- C7 (corrected): `mapTrack` selects as image the first non-empty URL among
the first three entries of the album's image list in provider order (empty
string when none exist), and as url the `external_urls.spotify` field when it
is present AND non-empty, otherwise the constructed provider URL built from
the track id. -/
theorem C7_mapTrack (t : TrackObj) :
    (mapTrack t).image = specImage t ∧ (mapTrack t).url = specUrl t := by
constructor
· show jsOrChain [imageCandidate t 0, imageCandidate t 1, imageCandidate t 2] = specImage t
  cases hal : t.album with
  | none => simp [imageCandidate, specImage, hal, jsOrChain]
  | some al =>
    cases him : al.images with
    | none => simp [imageCandidate, specImage, hal, him, jsOrChain]
    | some imgs =>
      have h0 : imageCandidate t 0 = imgsCandidate imgs 0 := by
        simp [imageCandidate, hal, him]
      have h1 : imageCandidate t 1 = imgsCandidate imgs 1 := by
        simp [imageCandidate, hal, him]
      have h2 : imageCandidate t 2 = imgsCandidate imgs 2 := by
        simp [imageCandidate, hal, him]
      rw [h0, h1, h2, chain3 imgs]
      simp [specImage, hal, him]
· rfl

/-- Counterexample for C7 as stated: a track whose `external_urls.spotify`
field is present but empty gets the constructed URL, not the field's value. -/
theorem C7_counterexample :
    (TrackObj.mk ("t1") ("nm") none none (some (ExtUrls.mk (some ("")))) 0 false
        none).external_urls = some (ExtUrls.mk (some (""))) ∧
    (mapTrack (TrackObj.mk ("t1") ("nm") none none (some (ExtUrls.mk (some (""))))
        0 false none)).url = ("https://open.spotify.com/track/t1") := by
decide

/-- C9 (confirmed): when the client id or secret is missing, `/api/search`
answers 500 with the missing-credentials error before looking at `q` (or
anything else), making no upstream call and leaving the cache untouched. -/
theorem C9_credentials_precedence (cfg : Config) (cache : TokenCache)
    (now now2 : Int) (tr : TokenResp) (sr : SearchResp) (req : SearchReq)
    (h : cfg.clientId = "" ∨ cfg.clientSecret = "") :
    searchHandler cfg cache now now2 tr sr req
      = HandlerOut.mk
          (SearchRes.err 500 ("Server missing Spotify credentials (.env)"))
          0 0 none cache := by
simp only [searchHandler]
rw [if_pos h]

/-- Witness for C9: missing client id with `q` also absent still answers 500,
not 400. -/
theorem C9_witness :
    searchHandler (Config.mk ("") ("sec") ("IN")) (TokenCache.mk none (some 0)) 0 5
        (TokenResp.mk true 200 (TokenData.mk (some ("tk")) (some 3600) none))
        (SearchResp.mk true 200 (SearchData.mk JErr.absent none))
        (SearchReq.mk none none none none)
      = HandlerOut.mk
          (SearchRes.err 500 ("Server missing Spotify credentials (.env)"))
          0 0 none (TokenCache.mk none (some 0)) :=
C9_credentials_precedence (Config.mk ("") ("sec") ("IN")) (TokenCache.mk none (some 0))
  0 5 (TokenResp.mk true 200 (TokenData.mk (some ("tk")) (some 3600) none))
  (SearchResp.mk true 200 (SearchData.mk JErr.absent none))
  (SearchReq.mk none none none none) (Or.inl rfl)

/-- C6 (confirmed, under configured credentials): when `q` is absent or blank
after trimming, `/api/search` answers 400 with the missing-query error and
makes no upstream call at all (no token exchange, no search). -/
theorem C6_missing_query (cfg : Config) (cache : TokenCache) (now now2 : Int)
    (tr : TokenResp) (sr : SearchResp) (req : SearchReq)
    (h1 : cfg.clientId ≠ "") (h2 : cfg.clientSecret ≠ "")
    (hq : jsTrim (jsOrD req.q ("")) = "") :
    searchHandler cfg cache now now2 tr sr req
      = HandlerOut.mk (SearchRes.err 400 ("Missing query parameter: q"))
          0 0 none cache := by
simp only [searchHandler]
rw [if_neg (by tauto), if_pos hq]

/-- Witness for C6: a request with no `q` parameter gets the 400 error with no
upstream calls; ditto a blank `q`. -/
theorem C6_witness :
    searchHandler (Config.mk ("id") ("sec") ("IN")) (TokenCache.mk none (some 0)) 0 5
        (TokenResp.mk true 200 (TokenData.mk (some ("tk")) (some 3600) none))
        (SearchResp.mk true 200 (SearchData.mk JErr.absent none))
        (SearchReq.mk none none none none)
      = HandlerOut.mk (SearchRes.err 400 ("Missing query parameter: q"))
          0 0 none (TokenCache.mk none (some 0)) ∧
    searchHandler (Config.mk ("id") ("sec") ("IN")) (TokenCache.mk none (some 0)) 0 5
        (TokenResp.mk true 200 (TokenData.mk (some ("tk")) (some 3600) none))
        (SearchResp.mk true 200 (SearchData.mk JErr.absent none))
        (SearchReq.mk (some ("   ")) none none none)
      = HandlerOut.mk (SearchRes.err 400 ("Missing query parameter: q"))
          0 0 none (TokenCache.mk none (some 0)) :=
⟨C6_missing_query (Config.mk ("id") ("sec") ("IN")) (TokenCache.mk none (some 0)) 0 5
    (TokenResp.mk true 200 (TokenData.mk (some ("tk")) (some 3600) none))
    (SearchResp.mk true 200 (SearchData.mk JErr.absent none))
    (SearchReq.mk none none none none) (by decide) (by decide) (by decide),
 C6_missing_query (Config.mk ("id") ("sec") ("IN")) (TokenCache.mk none (some 0)) 0 5
    (TokenResp.mk true 200 (TokenData.mk (some ("tk")) (some 3600) none))
    (SearchResp.mk true 200 (SearchData.mk JErr.absent none))
    (SearchReq.mk (some ("   ")) none none none) (by decide) (by decide) (by decide)⟩

/-- C5 (confirmed): when the upstream search responds with a non-success
status, the proxy's status is the upstream status unchanged, the body carries
`errOut` of the payload as `error` and the raw payload as `details`, exactly
one search call was made (no retry), and whenever the payload carries a
non-empty error message (object `error.message` or string `error`), the
`error` field is exactly that message. -/
theorem C5_upstream_failure (cfg : Config) (cache : TokenCache) (now now2 : Int)
    (tr : TokenResp) (sr : SearchResp) (req : SearchReq) (tok : Option String)
    (h1 : cfg.clientId ≠ "") (h2 : cfg.clientSecret ≠ "")
    (hq : jsTrim (jsOrD req.q ("")) ≠ "")
    (htok : (getAccessToken cache now tr now2).result = TokenResult.returned tok)
    (hok : sr.ok = false) :
    (searchHandler cfg cache now now2 tr sr req).res
      = SearchRes.errDetails sr.status (errOut sr.data) sr.data ∧
    (searchHandler cfg cache now now2 tr sr req).searchCalls = 1 ∧
    (∀ m, sr.data.error = JErr.jobj (some m) → m ≠ "" → errOut sr.data = JOut.jstr m) ∧
    (∀ s, sr.data.error = JErr.jstr s → s ≠ "" → errOut sr.data = JOut.jstr s) := by
have hmain : searchHandler cfg cache now now2 tr sr req
    = HandlerOut.mk
        (SearchRes.errDetails sr.status (errOut sr.data) sr.data)
        (if (getAccessToken cache now tr now2).networkCall then 1 else 0) 1
        (some (SearchParams.mk
          (buildQuery (jsTrim (jsOrD req.q (""))) (jsOrD req.lang ("english")))
          ("track") (jsOrD req.market cfg.defaultMarket)
          (limitString (effectiveLimit req.limit))))
        (getAccessToken cache now tr now2).cache := by
  simp only [searchHandler]
  rw [if_neg (by tauto), if_neg hq, htok, hok]
  simp
refine ⟨by rw [hmain], by rw [hmain], ?_, ?_⟩
· intro m hm hne
  simp [errOut, hm, hne]
· intro s hs hne
  simp [errOut, hs, hne]

/-- Witness for C5: a 404 upstream payload with `error.message = "Not found"`
is mirrored: status 404, error `"Not found"`, raw payload as details, one
search call. -/
theorem C5_witness :
    (searchHandler (Config.mk ("id") ("sec") ("IN")) (TokenCache.mk none (some 0)) 0 5
        (TokenResp.mk true 200 (TokenData.mk (some ("tk")) (some 3600) none))
        (SearchResp.mk false 404 (SearchData.mk (JErr.jobj (some ("Not found"))) none))
        (SearchReq.mk (some ("hello")) none none none)).res
      = SearchRes.errDetails 404
          (errOut (SearchData.mk (JErr.jobj (some ("Not found"))) none))
          (SearchData.mk (JErr.jobj (some ("Not found"))) none) ∧
    (searchHandler (Config.mk ("id") ("sec") ("IN")) (TokenCache.mk none (some 0)) 0 5
        (TokenResp.mk true 200 (TokenData.mk (some ("tk")) (some 3600) none))
        (SearchResp.mk false 404 (SearchData.mk (JErr.jobj (some ("Not found"))) none))
        (SearchReq.mk (some ("hello")) none none none)).searchCalls = 1 ∧
    errOut (SearchData.mk (JErr.jobj (some ("Not found"))) none)
      = JOut.jstr ("Not found") :=
⟨(C5_upstream_failure (Config.mk ("id") ("sec") ("IN")) (TokenCache.mk none (some 0))
    0 5 (TokenResp.mk true 200 (TokenData.mk (some ("tk")) (some 3600) none))
    (SearchResp.mk false 404 (SearchData.mk (JErr.jobj (some ("Not found"))) none))
    (SearchReq.mk (some ("hello")) none none none) (some ("tk"))
    (by decide) (by decide) (by decide) (by decide) rfl).1,
 (C5_upstream_failure (Config.mk ("id") ("sec") ("IN")) (TokenCache.mk none (some 0))
    0 5 (TokenResp.mk true 200 (TokenData.mk (some ("tk")) (some 3600) none))
    (SearchResp.mk false 404 (SearchData.mk (JErr.jobj (some ("Not found"))) none))
    (SearchReq.mk (some ("hello")) none none none) (some ("tk"))
    (by decide) (by decide) (by decide) (by decide) rfl).2.1,
 (C5_upstream_failure (Config.mk ("id") ("sec") ("IN")) (TokenCache.mk none (some 0))
    0 5 (TokenResp.mk true 200 (TokenData.mk (some ("tk")) (some 3600) none))
    (SearchResp.mk false 404 (SearchData.mk (JErr.jobj (some ("Not found"))) none))
    (SearchReq.mk (some ("hello")) none none none) (some ("tk"))
    (by decide) (by decide) (by decide) (by decide) rfl).2.2.1
   ("Not found") rfl (by decide)⟩

end MusicProxy
